import Mathlib

/-!
Shallow embedding of the Food-donation-System backend (src/backend/server.js).

The program is a set of Express HTTP handlers over two MongoDB collections
(users, donations).  We embed the persistent state as a `Store` holding
the two collections as lists, and each handler as a pure function
`Store → ... → Except ErrResp ...`, returning the HTTP status code and
message of the error branch the handler takes, or the updated store plus
the JSON payload of the success branch.  Object ids are `Nat`; strings
are `String` except for the Authorization header, which is embedded as
`List Char` so that the JavaScript `String.split(' ')` semantics can be
given and reasoned about directly.  `bcrypt.hash` / `bcrypt.compare` and
`jwt.sign` / `jwt.verify` are cryptographic primitives and are taken as
function parameters of the handlers that use them.
-/

namespace FoodDonation

/-- userType enum of the user schema (server.js line 37). -/
inductive Role where
  | donor
  | receiver
deriving DecidableEq, Repr

/-- status enum of the donation schema (server.js line 53). -/
inductive Status where
  | available
  | claimed
  | completed
deriving DecidableEq, Repr

/-- An error response: HTTP status code plus message, as produced by
`res.status(code).json({ message })`. -/
structure ErrResp where
  status : Nat
  message : String
deriving DecidableEq, Repr

/-- A JSON value appearing in a response object field. -/
inductive JVal where
  | str (s : String)
  | num (n : Nat)
  | role (r : Role)
deriving DecidableEq, Repr

/-- A JSON response object: ordered field list, as written in the source. -/
def JObj : Type := List (String × JVal)

/-- A user document (userSchema, server.js lines 32-40).  `password`
holds the bcrypt digest, never the plaintext. -/
structure User where
  id : Nat
  name : String
  email : String
  password : String
  phone : String
  userType : Role
  address : String
  createdAt : Nat
deriving DecidableEq, Repr

/-- A donation document (donationSchema, server.js lines 43-58). -/
structure Donation where
  id : Nat
  donorId : Nat
  donorName : String
  donorPhone : String
  foodName : String
  quantity : String
  category : String
  description : Option String
  pickupAddress : String
  expiryTime : String
  status : Status
  receiverId : Option Nat
  receiverName : Option String
  receiverPhone : Option String
  createdAt : Nat
deriving DecidableEq, Repr

/-- The persistent state: the two MongoDB collections. -/
structure Store where
  users : List User
  donations : List Donation
deriving DecidableEq, Repr

/-- `User.findById` (mongoose). -/
def findUserById (s : Store) (uid : Nat) : Option User :=
  s.users.find? (fun u => decide (u.id = uid))

/-- `User.findOne({ email })` (mongoose). -/
def findUserByEmail (s : Store) (email : String) : Option User :=
  s.users.find? (fun u => decide (u.email = email))

/-- `Donation.findById` (mongoose). -/
def findDonationById (s : Store) (did : Nat) : Option Donation :=
  s.donations.find? (fun x => decide (x.id = did))

/-- `donation.save()` on a fetched document: writes the document back
into the collection at its id. -/
def updateDonation (s : Store) (d : Donation) : Store :=
  { s with donations := s.donations.map (fun x => if x.id = d.id then d else x) }

/-! ### Token verification middleware (server.js lines 67-79)

`const token = req.headers.authorization?.split(' ')[1];` followed by
`if (!token) 401 "No token provided"`, then `jwt.verify` with
401 "Invalid token" on failure.  JavaScript `split(' ')` splits the
string at every single space, keeping empty pieces; index `[1]` is
`undefined` when fewer than two pieces exist, and both `undefined` and
the empty string are falsy.  `jwt.verify` is a parameter
`jwtVerify : List Char → Option Nat` returning the userId carried by a
token that verifies against the signing secret. -/

/-- JavaScript `String.prototype.split` with a one-character separator:
splits at every occurrence of `sep`, keeping empty pieces, and returns
`[[]]` on the empty string (JS returns `[""]`). -/
def jsSplit (sep : Char) : List Char → List (List Char)
  | [] => [[]]
  | c :: rest =>
    match jsSplit sep rest with
    | [] => if c = sep then [[], []] else [[c]]
    | p :: ps => if c = sep then [] :: p :: ps else (c :: p) :: ps

/-- The verifyToken middleware.  `authorization` is the raw header
(`none` when the header is absent). -/
def verifyToken (jwtVerify : List Char → Option Nat)
    (authorization : Option (List Char)) : Except ErrResp Nat :=
  let token := authorization.bind (fun h => (jsSplit (Char.ofNat 32) h).get? 1)
  match token with
  | none => .error ⟨401, "No token provided"⟩
  | some t =>
    if t = [] then .error ⟨401, "No token provided"⟩
    else
      match jwtVerify t with
      | some uid => .ok uid
      | none => .error ⟨401, "Invalid token"⟩

/-! ### Register (server.js lines 144-183) -/

/-- Request body of POST /api/register.  A field missing from the JSON
body is embedded as the empty string (both are falsy for the
`if (!name || ...)` check); `userType` is embedded at the enum type the
schema enforces. -/
structure RegisterPayload where
  name : String
  email : String
  password : String
  phone : String
  userType : Role
  address : String
deriving DecidableEq, Repr

/-- The user object of the 201 register response (server.js lines 172-177):
exactly id, name, email, userType. -/
def registerUserView (u : User) : JObj :=
  [("id", .num u.id), ("name", .str u.name),
   ("email", .str u.email), ("userType", .role u.userType)]

/-- POST /api/register: field presence check, duplicate-email check,
bcrypt hash, save, respond with `registerUserView`.  `hash` stands for
`bcrypt.hash(password, 10)`; `newId`/`now` are the generated `_id` and
`Date.now` default. -/
def register (hash : String → String) (s : Store) (p : RegisterPayload)
    (newId now : Nat) : Except ErrResp (Store × JObj) :=
  if p.name = "" ∨ p.email = "" ∨ p.password = "" ∨ p.phone = "" ∨ p.address = "" then
    .error ⟨400, "All fields are required"⟩
  else if (findUserByEmail s p.email).isSome then
    .error ⟨400, "User already exists with this email"⟩
  else
    let u : User :=
      { id := newId, name := p.name, email := p.email,
        password := hash p.password, phone := p.phone,
        userType := p.userType, address := p.address, createdAt := now }
    .ok ({ s with users := u :: s.users }, registerUserView u)

/-! ### Login (server.js lines 186-221) -/

/-- The user object of the 200 login response (server.js lines 208-215):
exactly id, name, email, userType, phone, address. -/
def loginUserView (u : User) : JObj :=
  [("id", .num u.id), ("name", .str u.name), ("email", .str u.email),
   ("userType", .role u.userType), ("phone", .str u.phone),
   ("address", .str u.address)]

/-- POST /api/login.  `compare` stands for `bcrypt.compare(password,
user.password)`; `sign` for `jwt.sign({userId}, JWT_SECRET, 24h)`. -/
def login (compare : String → String → Bool) (sign : Nat → String)
    (s : Store) (email password : String) : Except ErrResp (String × JObj) :=
  if email = "" ∨ password = "" then
    .error ⟨400, "Email and password are required"⟩
  else
    match findUserByEmail s email with
    | none => .error ⟨400, "Invalid email or password"⟩
    | some user =>
      if compare password user.password then
        .ok (sign user.id, loginUserView user)
      else
        .error ⟨400, "Invalid email or password"⟩

/-! ### Create donation (server.js lines 224-264) -/

/-- Request body of POST /api/donations; required string fields embed a
missing field as the empty string (falsy). -/
structure DonationPayload where
  foodName : String
  quantity : String
  category : String
  description : Option String
  pickupAddress : String
  expiryTime : String
deriving DecidableEq, Repr

/-- POST /api/donations, after verifyToken has produced `reqUserId`.
In the source the required-field check (line 228) comes first, then the
user lookup (line 232), then the role check (line 237). -/
def createDonation (s : Store) (reqUserId : Nat) (p : DonationPayload)
    (newId now : Nat) : Except ErrResp (Store × Donation) :=
  if p.foodName = "" ∨ p.quantity = "" ∨ p.category = "" ∨
      p.pickupAddress = "" ∨ p.expiryTime = "" then
    .error ⟨400, "All required fields must be filled"⟩
  else
    match findUserById s reqUserId with
    | none => .error ⟨404, "User not found"⟩
    | some user =>
      if user.userType ≠ Role.donor then
        .error ⟨403, "Only donors can create donations"⟩
      else
        let d : Donation :=
          { id := newId, donorId := reqUserId, donorName := user.name,
            donorPhone := user.phone, foodName := p.foodName,
            quantity := p.quantity, category := p.category,
            description := p.description, pickupAddress := p.pickupAddress,
            expiryTime := p.expiryTime, status := Status.available,
            receiverId := none, receiverName := none, receiverPhone := none,
            createdAt := now }
        .ok ({ s with donations := d :: s.donations }, d)

/-! ### Claim donation (server.js lines 300-335)

The handler is a read phase (user lookup, role check, donation lookup,
status check, mutation of the in-memory document, lines 302-323)
followed by a write phase (`await donation.save()`, line 325).  We keep
the two phases as separate definitions because the write is a separate
store operation in the source: nothing makes read-then-write atomic. -/

/-- Read phase of PUT /api/donations/:id/claim: all checks, producing
the updated in-memory document that `save()` will write. -/
def claimRead (s : Store) (reqUserId donationId : Nat) : Except ErrResp Donation :=
  match findUserById s reqUserId with
  | none => .error ⟨404, "User not found"⟩
  | some user =>
    if user.userType ≠ Role.receiver then
      .error ⟨403, "Only receivers can claim donations"⟩
    else
      match findDonationById s donationId with
      | none => .error ⟨404, "Donation not found"⟩
      | some donation =>
        if donation.status ≠ Status.available then
          .error ⟨400, "This donation is no longer available"⟩
        else
          .ok { donation with
                status := Status.claimed,
                receiverId := some reqUserId,
                receiverName := some user.name,
                receiverPhone := some user.phone }

/-- Write phase: `donation.save()` writes the document back by id. -/
def claimWrite (s : Store) (d : Donation) : Store :=
  updateDonation s d

/-- The whole handler run without interleaving: read phase immediately
followed by its write phase. -/
def claimDonation (s : Store) (reqUserId donationId : Nat) :
    Except ErrResp (Store × Donation) :=
  match claimRead s reqUserId donationId with
  | .error e => .error e
  | .ok d => .ok (claimWrite s d, d)

/-! ### List available donations (server.js lines 267-276) -/

/-- The sort order of `.sort({ createdAt: -1 })`: creation time
descending. -/
def byCreatedAtDesc (a b : Donation) : Prop :=
  b.createdAt ≤ a.createdAt

instance : DecidableRel byCreatedAtDesc :=
  fun a b => Nat.decLe b.createdAt a.createdAt

instance : IsTotal Donation byCreatedAtDesc :=
  ⟨fun a b => Nat.le_total b.createdAt a.createdAt⟩

instance : IsTrans Donation byCreatedAtDesc :=
  ⟨fun _ _ _ h1 h2 => Nat.le_trans h2 h1⟩

/-- GET /api/donations: `Donation.find({ status: 'available' }).sort({
createdAt: -1 })`. -/
def listAvailable (s : Store) : List Donation :=
  List.insertionSort byCreatedAtDesc
    (s.donations.filter (fun d => decide (d.status = Status.available)))

/-! ### Reachable stores

The state-changing operations the API exposes are register, create
donation and claim donation (login, the listings, health and stats are
read-only).  A store is reachable when it arises from the empty
database by a sequence of successful such operations. -/

inductive Reachable : Store → Prop
  | init : Reachable ⟨[], []⟩
  | registerStep {s s' : Store} (hash : String → String) (p : RegisterPayload)
      (newId now : Nat) (v : JObj) :
      Reachable s → register hash s p newId now = .ok (s', v) → Reachable s'
  | createStep {s s' : Store} (uid : Nat) (p : DonationPayload)
      (newId now : Nat) (d : Donation) :
      Reachable s → createDonation s uid p newId now = .ok (s', d) → Reachable s'
  | claimStep {s s' : Store} (uid did : Nat) (d : Donation) :
      Reachable s → claimDonation s uid did = .ok (s', d) → Reachable s'

/-! ### Helper lemmas -/

/-- The updated document a successful claim writes. -/
def claimedDoc (d0 : Donation) (reqUserId : Nat) (u : User) : Donation :=
  { d0 with
    status := Status.claimed,
    receiverId := some reqUserId,
    receiverName := some u.name,
    receiverPhone := some u.phone }

theorem claimRead_ok_of {s : Store} {uid did : Nat} {u : User} {d0 : Donation}
    (hu : findUserById s uid = some u) (hr : u.userType = Role.receiver)
    (hd : findDonationById s did = some d0) (hs : d0.status = Status.available) :
    claimRead s uid did = .ok (claimedDoc d0 uid u) := by
  simp [claimRead, hu, hr, hd, hs, claimedDoc]

theorem claimRead_ok_elim {s : Store} {uid did : Nat} {d' : Donation}
    (h : claimRead s uid did = .ok d') :
    ∃ u d0, findUserById s uid = some u ∧ u.userType = Role.receiver ∧
      findDonationById s did = some d0 ∧ d0.status = Status.available ∧
      d' = claimedDoc d0 uid u := by
  unfold claimRead at h
  split at h
  · exact absurd h (by simp)
  next u hu =>
    split at h
    · exact absurd h (by simp)
    next hrole =>
      split at h
      · exact absurd h (by simp)
      next d0 hd =>
        split at h
        · exact absurd h (by simp)
        next hstat =>
          refine ⟨u, d0, hu, not_not.mp hrole, hd, not_not.mp hstat, ?_⟩
          simpa [claimedDoc] using h.symm

theorem find?_id_update {l : List Donation} {did : Nat} {d0 : Donation}
    (d' : Donation)
    (h : l.find? (fun x => decide (x.id = did)) = some d0) (hid : d'.id = did) :
    (l.map (fun x => if x.id = did then d' else x)).find?
      (fun x => decide (x.id = did)) = some d' := by
  induction l with
  | nil => simp [List.find?] at h
  | cons a t ih =>
    by_cases ha : a.id = did
    · simp [ha, hid]
    · rw [List.find?_cons_of_neg _ (by simpa using ha)] at h
      simpa [ha] using ih h

theorem findDonationById_after_claimWrite {s : Store} {did : Nat} {d0 d' : Donation}
    (h : findDonationById s did = some d0) (hid : d'.id = did) :
    findDonationById (claimWrite s d') did = some d' := by
  unfold findDonationById claimWrite updateDonation at *
  simpa [hid] using find?_id_update d' h hid

theorem claimDonation_ok_elim {s s' : Store} {uid did : Nat} {d1 : Donation}
    (h : claimDonation s uid did = .ok (s', d1)) :
    claimRead s uid did = .ok d1 ∧ s' = claimWrite s d1 := by
  unfold claimDonation at h
  split at h
  · exact absurd h (by simp)
  next d hd =>
    have h' : claimWrite s d = s' ∧ d = d1 := by simpa using h
    obtain ⟨h1, h2⟩ := h'
    subst h2
    exact ⟨hd, h1.symm⟩

theorem donation_found_id {s : Store} {did : Nat} {d0 : Donation}
    (h : findDonationById s did = some d0) : d0.id = did := by
  have := List.find?_some h
  simpa using this

theorem donation_found_mem {s : Store} {did : Nat} {d0 : Donation}
    (h : findDonationById s did = some d0) : d0 ∈ s.donations :=
  List.mem_of_find?_eq_some h

/-! ### Concrete fixtures used by the witness theorems -/

/-- A donor account. -/
def donorU : User :=
  { id := 1, name := "Dana", email := "dana@x.com", password := "h1",
    phone := "111", userType := Role.donor, address := "A St", createdAt := 0 }

/-- A receiver account. -/
def recvU : User :=
  { id := 2, name := "Rita", email := "rita@x.com", password := "h2",
    phone := "222", userType := Role.receiver, address := "B St", createdAt := 0 }

/-- A second receiver account. -/
def recvU2 : User :=
  { id := 3, name := "Remy", email := "remy@x.com", password := "h3",
    phone := "333", userType := Role.receiver, address := "C St", createdAt := 0 }

/-- An available donation posted by the donor. -/
def availD : Donation :=
  { id := 10, donorId := 1, donorName := "Dana", donorPhone := "111",
    foodName := "Bread", quantity := "5 loaves", category := "Bakery",
    description := none, pickupAddress := "1 Main St",
    expiryTime := "2025-01-01T18:00", status := Status.available,
    receiverId := none, receiverName := none, receiverPhone := none,
    createdAt := 5 }

/-- A store with the three accounts and the available donation. -/
def s0 : Store := ⟨[donorU, recvU, recvU2], [availD]⟩

/-! ### Claim theorems -/

/-- C1: claimDonation by a receiver on an available donation succeeds,
setting status to claimed and the receiver id/name/phone to the
caller's; it fails 404 NotFound when the receiver is absent, 403
Forbidden when the caller is not a receiver (whatever the donation
state), 404 NotFound when the donation is absent, and 400 InvalidState
when the donation is not available, the checks being performed in that
order. -/
theorem claimDonation_spec :
    (∀ s uid did u d0, findUserById s uid = some u → u.userType = Role.receiver →
        findDonationById s did = some d0 → d0.status = Status.available →
        claimDonation s uid did =
          .ok (claimWrite s (claimedDoc d0 uid u), claimedDoc d0 uid u) ∧
        (claimedDoc d0 uid u).status = Status.claimed ∧
        (claimedDoc d0 uid u).receiverId = some uid ∧
        (claimedDoc d0 uid u).receiverName = some u.name ∧
        (claimedDoc d0 uid u).receiverPhone = some u.phone ∧
        findDonationById (claimWrite s (claimedDoc d0 uid u)) did =
          some (claimedDoc d0 uid u)) ∧
    (∀ s uid did, findUserById s uid = none →
        claimDonation s uid did = .error ⟨404, "User not found"⟩) ∧
    (∀ s uid did u, findUserById s uid = some u → u.userType ≠ Role.receiver →
        claimDonation s uid did = .error ⟨403, "Only receivers can claim donations"⟩) ∧
    (∀ s uid did u, findUserById s uid = some u → u.userType = Role.receiver →
        findDonationById s did = none →
        claimDonation s uid did = .error ⟨404, "Donation not found"⟩) ∧
    (∀ s uid did u d0, findUserById s uid = some u → u.userType = Role.receiver →
        findDonationById s did = some d0 → d0.status ≠ Status.available →
        claimDonation s uid did = .error ⟨400, "This donation is no longer available"⟩) := by
  refine ⟨?_, ?_, ?_, ?_, ?_⟩
  · intro s uid did u d0 hu hr hd hs
    refine ⟨?_, by simp [claimedDoc], by simp [claimedDoc], by simp [claimedDoc],
      by simp [claimedDoc], ?_⟩
    · simp [claimDonation, claimRead_ok_of hu hr hd hs]
    · exact findDonationById_after_claimWrite hd
        (by simpa [claimedDoc] using donation_found_id hd)
  · intro s uid did hu
    simp [claimDonation, claimRead, hu]
  · intro s uid did u hu hr
    simp [claimDonation, claimRead, hu, hr]
  · intro s uid did u hu hr hd
    simp [claimDonation, claimRead, hu, hr, hd]
  · intro s uid did u d0 hu hr hd hs
    simp [claimDonation, claimRead, hu, hr, hd, hs]

/-- Witness for C1: each branch exercised on the concrete store `s0`. -/
theorem claimDonation_spec_witness :
    claimDonation s0 2 10 =
      .ok (claimWrite s0 (claimedDoc availD 2 recvU), claimedDoc availD 2 recvU) ∧
    claimDonation s0 99 10 = .error ⟨404, "User not found"⟩ ∧
    claimDonation s0 1 10 = .error ⟨403, "Only receivers can claim donations"⟩ ∧
    claimDonation s0 2 99 = .error ⟨404, "Donation not found"⟩ ∧
    claimDonation (claimWrite s0 (claimedDoc availD 2 recvU)) 3 10 =
      .error ⟨400, "This donation is no longer available"⟩ :=
  ⟨(claimDonation_spec.1 s0 2 10 recvU availD (by decide) (by decide)
      (by decide) (by decide)).1,
   claimDonation_spec.2.1 s0 99 10 (by decide),
   claimDonation_spec.2.2.1 s0 1 10 donorU (by decide) (by decide),
   claimDonation_spec.2.2.2.1 s0 2 99 recvU (by decide) (by decide) (by decide),
   claimDonation_spec.2.2.2.2 (claimWrite s0 (claimedDoc availD 2 recvU)) 3 10
     recvU2 (claimedDoc availD 2 recvU) (by decide) (by decide) (by decide)
     (by decide)⟩

/-- C2: after a successful claim by receiver uid1, a further claim of
the same donation by any receiver fails 400 InvalidState, and the
donation keeps the status and receiver identity set by the first
claim. -/
theorem claim_exactly_once :
    ∀ s s' uid1 did d1 uid2 u2,
      claimDonation s uid1 did = .ok (s', d1) →
      findUserById s' uid2 = some u2 → u2.userType = Role.receiver →
      claimDonation s' uid2 did = .error ⟨400, "This donation is no longer available"⟩ ∧
      findDonationById s' did = some d1 ∧
      d1.status = Status.claimed ∧ d1.receiverId = some uid1 ∧
      (∃ u1, findUserById s uid1 = some u1 ∧
        d1.receiverName = some u1.name ∧ d1.receiverPhone = some u1.phone) := by
  intro s s' uid1 did d1 uid2 u2 h hu2 hr2
  obtain ⟨hread, hs'⟩ := claimDonation_ok_elim h
  obtain ⟨u1, d0, hu1, hr1, hd0, hav, hd1⟩ := claimRead_ok_elim hread
  have hid : d1.id = did := by
    simpa [hd1, claimedDoc] using donation_found_id hd0
  have hfind : findDonationById s' did = some d1 := by
    rw [hs']
    exact findDonationById_after_claimWrite hd0 hid
  have hclaimed : d1.status = Status.claimed := by simp [hd1, claimedDoc]
  refine ⟨?_, hfind, hclaimed, by simp [hd1, claimedDoc],
    u1, hu1, by simp [hd1, claimedDoc], by simp [hd1, claimedDoc]⟩
  simp [claimDonation, claimRead, hu2, hr2, hfind, hclaimed]

/-- Witness for C2: the concrete claim by receiver 2 followed by the
attempt of receiver 3 on store `s0`. -/
theorem claim_exactly_once_witness :
    claimDonation (claimWrite s0 (claimedDoc availD 2 recvU)) 3 10 =
      .error ⟨400, "This donation is no longer available"⟩ ∧
    findDonationById (claimWrite s0 (claimedDoc availD 2 recvU)) 10 =
      some (claimedDoc availD 2 recvU) ∧
    (claimedDoc availD 2 recvU).status = Status.claimed ∧
    (claimedDoc availD 2 recvU).receiverId = some 2 ∧
    (∃ u1, findUserById s0 2 = some u1 ∧
      (claimedDoc availD 2 recvU).receiverName = some u1.name ∧
      (claimedDoc availD 2 recvU).receiverPhone = some u1.phone) :=
  claim_exactly_once s0 (claimWrite s0 (claimedDoc availD 2 recvU)) 2 10
    (claimedDoc availD 2 recvU) 3 recvU2 rfl (by decide) (by decide)

/-- C7: a successful claim only rewrites status and the receiver
fields of the claimed donation: its id, donor identity, food
attributes and creation time are kept, every other donation (by
position) is untouched, and the users collection is untouched. -/
theorem claim_frame :
    ∀ s s' uid did d', claimDonation s uid did = .ok (s', d') →
      ∃ u d0, findUserById s uid = some u ∧ findDonationById s did = some d0 ∧
        d'.id = d0.id ∧ d'.donorId = d0.donorId ∧ d'.donorName = d0.donorName ∧
        d'.donorPhone = d0.donorPhone ∧ d'.foodName = d0.foodName ∧
        d'.quantity = d0.quantity ∧ d'.category = d0.category ∧
        d'.description = d0.description ∧ d'.pickupAddress = d0.pickupAddress ∧
        d'.expiryTime = d0.expiryTime ∧ d'.createdAt = d0.createdAt ∧
        d'.status = Status.claimed ∧ d'.receiverId = some uid ∧
        d'.receiverName = some u.name ∧ d'.receiverPhone = some u.phone ∧
        s'.users = s.users ∧
        s'.donations.length = s.donations.length ∧
        (∀ (i : Nat) (x : Donation), s.donations[i]? = some x → x.id ≠ did →
          s'.donations[i]? = some x) := by
  intro s s' uid did d' h
  obtain ⟨hread, hs'⟩ := claimDonation_ok_elim h
  obtain ⟨u, d0, hu, hr, hd, hav, hd'⟩ := claimRead_ok_elim hread
  subst hs'
  have hid : d'.id = did := by
    simpa [hd', claimedDoc] using donation_found_id hd
  refine ⟨u, d0, hu, hd,
    by simp [hd', claimedDoc], by simp [hd', claimedDoc],
    by simp [hd', claimedDoc], by simp [hd', claimedDoc],
    by simp [hd', claimedDoc], by simp [hd', claimedDoc],
    by simp [hd', claimedDoc], by simp [hd', claimedDoc],
    by simp [hd', claimedDoc], by simp [hd', claimedDoc],
    by simp [hd', claimedDoc], by simp [hd', claimedDoc],
    by simp [hd', claimedDoc], by simp [hd', claimedDoc],
    by simp [hd', claimedDoc], rfl,
    by simp [claimWrite, updateDonation], ?_⟩
  intro i x hx hne
  simp [claimWrite, updateDonation, List.getElem?_map, hx, hid, hne]

/-- Witness for C7: the concrete claim on store `s0`. -/
theorem claim_frame_witness :
    ∃ u d0, findUserById s0 2 = some u ∧ findDonationById s0 10 = some d0 ∧
      (claimedDoc availD 2 recvU).id = d0.id ∧
      (claimedDoc availD 2 recvU).donorId = d0.donorId ∧
      (claimedDoc availD 2 recvU).donorName = d0.donorName ∧
      (claimedDoc availD 2 recvU).donorPhone = d0.donorPhone ∧
      (claimedDoc availD 2 recvU).foodName = d0.foodName ∧
      (claimedDoc availD 2 recvU).quantity = d0.quantity ∧
      (claimedDoc availD 2 recvU).category = d0.category ∧
      (claimedDoc availD 2 recvU).description = d0.description ∧
      (claimedDoc availD 2 recvU).pickupAddress = d0.pickupAddress ∧
      (claimedDoc availD 2 recvU).expiryTime = d0.expiryTime ∧
      (claimedDoc availD 2 recvU).createdAt = d0.createdAt ∧
      (claimedDoc availD 2 recvU).status = Status.claimed ∧
      (claimedDoc availD 2 recvU).receiverId = some 2 ∧
      (claimedDoc availD 2 recvU).receiverName = some u.name ∧
      (claimedDoc availD 2 recvU).receiverPhone = some u.phone ∧
      (claimWrite s0 (claimedDoc availD 2 recvU)).users = s0.users ∧
      (claimWrite s0 (claimedDoc availD 2 recvU)).donations.length =
        s0.donations.length ∧
      (∀ (i : Nat) (x : Donation), s0.donations[i]? = some x → x.id ≠ 10 →
        (claimWrite s0 (claimedDoc availD 2 recvU)).donations[i]? = some x) :=
  claim_frame s0 (claimWrite s0 (claimedDoc availD 2 recvU)) 2 10
    (claimedDoc availD 2 recvU) rfl

/-! ### Reachability invariant lemmas -/

theorem register_ok_donations {hash : String → String} {s s' : Store}
    {p : RegisterPayload} {newId now : Nat} {v : JObj}
    (h : register hash s p newId now = .ok (s', v)) :
    s'.donations = s.donations := by
  unfold register at h
  split at h
  · exact absurd h (by simp)
  split at h
  · exact absurd h (by simp)
  have h' := by simpa using h
  rw [← h'.1]

theorem create_ok_shape {s s' : Store} {uid : Nat} {p : DonationPayload}
    {newId now : Nat} {d : Donation}
    (h : createDonation s uid p newId now = .ok (s', d)) :
    s'.donations = d :: s.donations ∧ d.status = Status.available := by
  unfold createDonation at h
  split at h
  · exact absurd h (by simp)
  split at h
  · exact absurd h (by simp)
  next user _ =>
    split at h
    · exact absurd h (by simp)
    have h' := by simpa using h
    obtain ⟨h1, h2⟩ := h'
    subst h2
    constructor
    · rw [← h1]
    · simp

theorem claim_ok_mem {s s' : Store} {uid did : Nat} {d' : Donation}
    (h : claimDonation s uid did = .ok (s', d')) :
    d'.status = Status.claimed ∧
    ∀ x ∈ s'.donations, x ∈ s.donations ∨ x = d' := by
  obtain ⟨hread, hs'⟩ := claimDonation_ok_elim h
  obtain ⟨u, d0, hu, hr, hd, hav, hd'⟩ := claimRead_ok_elim hread
  subst hs'
  refine ⟨by simp [hd', claimedDoc], ?_⟩
  intro x hx
  simp only [claimWrite, updateDonation, List.mem_map] at hx
  obtain ⟨a, ha, hax⟩ := hx
  by_cases hcase : a.id = d'.id
  · right
    simpa [hcase] using hax.symm
  · left
    rw [if_neg hcase] at hax
    rwa [← hax]

/-- C5: in every reachable store, every donation's status is available
or claimed; the status `completed` is never produced by the exposed
operations. -/
theorem status_completed_unreachable :
    ∀ s, Reachable s → ∀ d ∈ s.donations,
      d.status = Status.available ∨ d.status = Status.claimed := by
  intro s hreach
  induction hreach with
  | init => intro d hd; simp at hd
  | registerStep hash p newId now v _ hok ih =>
    intro d hd
    rw [register_ok_donations hok] at hd
    exact ih d hd
  | createStep uid p newId now d0 _ hok ih =>
    intro d hd
    obtain ⟨hdon, hstat⟩ := create_ok_shape hok
    rw [hdon] at hd
    rcases List.mem_cons.mp hd with rfl | hd
    · exact Or.inl hstat
    · exact ih d hd
  | claimStep uid did d0 _ hok ih =>
    intro d hd
    obtain ⟨hstat, hmem⟩ := claim_ok_mem hok
    rcases hmem d hd with hd | rfl
    · exact ih d hd
    · exact Or.inr hstat

/-- The hash function used in witness derivations (stands for bcrypt). -/
def hashF : String → String := fun x => String.append x "#h"

/-- The register payload of the witness donor. -/
def regPDana : RegisterPayload :=
  { name := "Dana", email := "dana@x.com", password := "pw", phone := "111",
    userType := Role.donor, address := "A St" }

/-- The user document register saves for `regPDana`. -/
def uDana : User :=
  { id := 1, name := "Dana", email := "dana@x.com", password := "pw#h",
    phone := "111", userType := Role.donor, address := "A St", createdAt := 0 }

/-- The donation payload of the witness donation. -/
def payloadBread : DonationPayload :=
  { foodName := "Bread", quantity := "5 loaves", category := "Bakery",
    description := none, pickupAddress := "1 Main St",
    expiryTime := "2025-01-01T18:00" }

/-- The donation document createDonation saves for `payloadBread`. -/
def dBread : Donation :=
  { id := 10, donorId := 1, donorName := "Dana", donorPhone := "111",
    foodName := "Bread", quantity := "5 loaves", category := "Bakery",
    description := none, pickupAddress := "1 Main St",
    expiryTime := "2025-01-01T18:00", status := Status.available,
    receiverId := none, receiverName := none, receiverPhone := none,
    createdAt := 5 }

/-- Witness for C5: the store reached by registering Dana and creating
the Bread donation is reachable, and the theorem applies to the
donation it contains. -/
theorem status_completed_unreachable_witness :
    dBread.status = Status.available ∨ dBread.status = Status.claimed := by
  have h1 : Reachable ⟨[uDana], []⟩ :=
    Reachable.registerStep hashF regPDana 1 0 (registerUserView uDana)
      Reachable.init rfl
  have h2 : Reachable ⟨[uDana], [dBread]⟩ :=
    Reachable.createStep 1 payloadBread 10 5 dBread h1 rfl
  exact status_completed_unreachable ⟨[uDana], [dBread]⟩ h2 dBread (by simp)

/-- C6: GET /api/donations returns exactly the donations whose status
is available (as a multiset: a permutation of the filtered collection),
sorted by creation time descending; a claimed or completed donation
never appears. -/
theorem listAvailable_spec :
    ∀ s, List.Perm (listAvailable s)
        (s.donations.filter (fun d => decide (d.status = Status.available))) ∧
      List.Sorted byCreatedAtDesc (listAvailable s) ∧
      ∀ d, (d ∈ listAvailable s ↔ d ∈ s.donations ∧ d.status = Status.available) := by
  intro s
  refine ⟨List.perm_insertionSort _ _, List.sorted_insertionSort _ _, ?_⟩
  intro d
  rw [listAvailable, List.mem_insertionSort, List.mem_filter]
  simp

/-! ### The claim race (C3)

The handler's read phase (lines 302-323) and write phase (line 325) are
separate awaited store operations; nothing conditions the write on the
status still being available.  Interleaving two requests as
read(2), read(3), write(2), write(3) makes both requests pass every
check and both respond 200, the second write silently overwriting the
first claim. -/

/-- C3: the transition is NOT an atomic compare-and-swap: in the
interleaving read(receiver 2), read(receiver 3), write(2), write(3) on
the store `s0`, both claim requests succeed (both read phases return ok,
so both handlers run their write and respond 200 with their own
document), the two successful responses name different receivers, and
the final store records receiver 3, receiver 2's update being lost. -/
theorem claim_race_lost_update :
    claimRead s0 2 10 = .ok (claimedDoc availD 2 recvU) ∧
    claimRead s0 3 10 = .ok (claimedDoc availD 3 recvU2) ∧
    (claimedDoc availD 2 recvU).receiverId = some 2 ∧
    (claimedDoc availD 3 recvU2).receiverId = some 3 ∧
    (claimedDoc availD 2 recvU).status = Status.claimed ∧
    (claimedDoc availD 3 recvU2).status = Status.claimed ∧
    findDonationById
      (claimWrite (claimWrite s0 (claimedDoc availD 2 recvU))
        (claimedDoc availD 3 recvU2)) 10 = some (claimedDoc availD 3 recvU2) ∧
    claimedDoc availD 2 recvU ≠ claimedDoc availD 3 recvU2 := by
  refine ⟨rfl, rfl, rfl, rfl, rfl, rfl, rfl, ?_⟩
  intro h
  have : (claimedDoc availD 2 recvU).receiverId =
      (claimedDoc availD 3 recvU2).receiverId := by rw [h]
  simp [claimedDoc] at this

/-! ### Create-donation check order (C4) -/

/-- A payload with an empty required field (foodName). -/
def badPayload : DonationPayload :=
  { foodName := "", quantity := "5 loaves", category := "Bakery",
    description := none, pickupAddress := "1 Main St",
    expiryTime := "2025-01-01T18:00" }

/-- A payload with every required field present. -/
def goodPayload : DonationPayload :=
  { foodName := "Rice", quantity := "2 kg", category := "Grains",
    description := none, pickupAddress := "2 Oak Ave",
    expiryTime := "2025-02-02T12:00" }

/-- Counterexample to C4: user 2 of store `s0` is a receiver, yet
createDonation with an invalid payload answers 400 InvalidInput, not
403 Forbidden: the required-field validation runs before the role
check. -/
theorem createDonation_receiver_gets_invalid_input :
    findUserById s0 2 = some recvU ∧ recvU.userType = Role.receiver ∧
    createDonation s0 2 badPayload 11 6 =
      .error ⟨400, "All required fields must be filled"⟩ ∧
    createDonation s0 2 badPayload 11 6 ≠
      .error ⟨403, "Only donors can create donations"⟩ := by
  have heq : createDonation s0 2 badPayload 11 6 =
      .error ⟨400, "All required fields must be filled"⟩ := rfl
  refine ⟨by decide, by decide, heq, ?_⟩
  rw [heq]
  intro h
  have := Except.error.inj h
  simp at this

/-- C4 amended: createDonation checks the required fields first
(400 InvalidInput for any caller, even absent or receiver-role), then
loads the donor (404 NotFound), then checks the role (403 Forbidden);
a receiver-role caller gets Forbidden only when the payload passes
validation. -/
theorem createDonation_check_order :
    (∀ s uid p newId now, (p.foodName = "" ∨ p.quantity = "" ∨ p.category = "" ∨
        p.pickupAddress = "" ∨ p.expiryTime = "") →
      createDonation s uid p newId now =
        .error ⟨400, "All required fields must be filled"⟩) ∧
    (∀ s uid p newId now, p.foodName ≠ "" → p.quantity ≠ "" → p.category ≠ "" →
        p.pickupAddress ≠ "" → p.expiryTime ≠ "" → findUserById s uid = none →
      createDonation s uid p newId now = .error ⟨404, "User not found"⟩) ∧
    (∀ s uid p newId now u, p.foodName ≠ "" → p.quantity ≠ "" → p.category ≠ "" →
        p.pickupAddress ≠ "" → p.expiryTime ≠ "" → findUserById s uid = some u →
        u.userType ≠ Role.donor →
      createDonation s uid p newId now =
        .error ⟨403, "Only donors can create donations"⟩) := by
  refine ⟨?_, ?_, ?_⟩
  · intro s uid p newId now h
    unfold createDonation
    rw [if_pos h]
  · intro s uid p newId now h1 h2 h3 h4 h5 hu
    unfold createDonation
    rw [if_neg (by simp [h1, h2, h3, h4, h5]), hu]
  · intro s uid p newId now u h1 h2 h3 h4 h5 hu hr
    unfold createDonation
    rw [if_neg (by simp [h1, h2, h3, h4, h5]), hu]
    simp [hr]

/-- Witness for the amended C4: the three branches on store `s0`. -/
theorem createDonation_check_order_witness :
    createDonation s0 2 badPayload 11 6 =
      .error ⟨400, "All required fields must be filled"⟩ ∧
    createDonation s0 99 goodPayload 11 6 = .error ⟨404, "User not found"⟩ ∧
    createDonation s0 2 goodPayload 11 6 =
      .error ⟨403, "Only donors can create donations"⟩ :=
  ⟨createDonation_check_order.1 s0 2 badPayload 11 6 (by decide),
   createDonation_check_order.2.1 s0 99 goodPayload 11 6 (by decide) (by decide)
     (by decide) (by decide) (by decide) (by decide),
   createDonation_check_order.2.2 s0 2 goodPayload 11 6 recvU (by decide)
     (by decide) (by decide) (by decide) (by decide) (by decide) (by decide)⟩

/-! ### Login failure indistinguishability (C8) -/

/-- C8: login with an unknown email and login with a known email but a
password whose bcrypt comparison fails produce the very same response:
status 400, message "Invalid email or password". -/
theorem login_failure_indistinguishable :
    ∀ compare sign s e1 p1 e2 p2 u,
      e1 ≠ "" → p1 ≠ "" → e2 ≠ "" → p2 ≠ "" →
      findUserByEmail s e1 = none →
      findUserByEmail s e2 = some u → compare p2 u.password = false →
      login compare sign s e1 p1 = login compare sign s e2 p2 ∧
      login compare sign s e1 p1 = .error ⟨400, "Invalid email or password"⟩ := by
  intro compare sign s e1 p1 e2 p2 u he1 hp1 he2 hp2 hn hs hc
  constructor <;> simp [login, he1, hp1, he2, hp2, hn, hs, hc]

/-- bcrypt.compare stand-in for witnesses: equality of plaintext with
the stored digest under `hashF`. -/
def compareF : String → String → Bool :=
  fun plaintext digest => decide (String.append plaintext "#h" = digest)

/-- jwt.sign stand-in for witnesses. -/
def signF : Nat → String := fun n => String.append "token" (toString n)

/-- A store with one registered user for the login witnesses. -/
def sLogin : Store := ⟨[uDana], []⟩

/-- Witness for C8: unknown email "zoe@x.com" versus Dana's email with
the wrong password "bad". -/
theorem login_failure_indistinguishable_witness :
    login compareF signF sLogin "zoe@x.com" "pw" =
      login compareF signF sLogin "dana@x.com" "bad" ∧
    login compareF signF sLogin "zoe@x.com" "pw" =
      .error ⟨400, "Invalid email or password"⟩ :=
  login_failure_indistinguishable compareF signF sLogin "zoe@x.com" "pw"
    "dana@x.com" "bad" uDana (by decide) (by decide) (by decide) (by decide)
    (by decide) (by decide) (by decide)

/-! ### Success-response shapes (C9) -/

theorem register_ok_view {hash : String → String} {s s' : Store}
    {p : RegisterPayload} {newId now : Nat} {v : JObj}
    (h : register hash s p newId now = .ok (s', v)) :
    ∃ u : User, v = registerUserView u := by
  unfold register at h
  split at h
  · exact absurd h (by simp)
  split at h
  · exact absurd h (by simp)
  have h' := by simpa using h
  exact ⟨_, h'.2.symm⟩

theorem login_ok_view {compare : String → String → Bool} {sign : Nat → String}
    {s : Store} {email password tok : String} {v : JObj}
    (h : login compare sign s email password = .ok (tok, v)) :
    ∃ u : User, v = loginUserView u := by
  unfold login at h
  split at h
  · exact absurd h (by simp)
  split at h
  · exact absurd h (by simp)
  next u hu =>
    split at h
    · have h' := by simpa using h
      exact ⟨u, h'.2.symm⟩
    · exact absurd h (by simp)

/-- C9: the user object of a successful register response carries
exactly the keys id, name, email, userType, and the user object of a
successful login response exactly id, name, email, userType, phone,
address; neither carries the password key, so the stored digest never
appears in a success response. -/
theorem response_views_no_password :
    (∀ hash s p newId now s' v, register hash s p newId now = .ok (s', v) →
        List.map Prod.fst v = ["id", "name", "email", "userType"] ∧
        "password" ∉ List.map Prod.fst v) ∧
    (∀ compare sign s email password tok v,
        login compare sign s email password = .ok (tok, v) →
        List.map Prod.fst v =
          ["id", "name", "email", "userType", "phone", "address"] ∧
        "password" ∉ List.map Prod.fst v) := by
  constructor
  · intro hash s p newId now s' v h
    obtain ⟨u, rfl⟩ := register_ok_view h
    have hm : List.map Prod.fst (registerUserView u) =
        ["id", "name", "email", "userType"] := by simp [registerUserView]
    exact ⟨hm, by rw [hm]; decide⟩
  · intro compare sign s email password tok v h
    obtain ⟨u, rfl⟩ := login_ok_view h
    have hm : List.map Prod.fst (loginUserView u) =
        ["id", "name", "email", "userType", "phone", "address"] := by
      simp [loginUserView]
    exact ⟨hm, by rw [hm]; decide⟩

/-- Witness for C9: the concrete register of Dana and a concrete
successful login. -/
theorem response_views_no_password_witness :
    List.map Prod.fst (registerUserView uDana) =
      ["id", "name", "email", "userType"] ∧
    "password" ∉ List.map Prod.fst (registerUserView uDana) ∧
    List.map Prod.fst (loginUserView uDana) =
      ["id", "name", "email", "userType", "phone", "address"] ∧
    "password" ∉ List.map Prod.fst (loginUserView uDana) := by
  have h1 := response_views_no_password.1 hashF ⟨[], []⟩ regPDana 1 0
    ⟨[uDana], []⟩ (registerUserView uDana) rfl
  have h2 := response_views_no_password.2 compareF signF sLogin
    "dana@x.com" "pw" (signF 1) (loginUserView uDana) rfl
  exact ⟨h1.1, h1.2, h2.1, h2.2⟩

/-! ### Token extraction (C10) -/

theorem jsSplit_ne_nil (sep : Char) (s : List Char) : jsSplit sep s ≠ [] := by
  cases s with
  | nil => simp [jsSplit]
  | cons c rest =>
    simp only [jsSplit]
    split <;> split <;> simp

theorem jsSplit_no_sep {sep : Char} {s : List Char} (h : sep ∉ s) :
    jsSplit sep s = [s] := by
  induction s with
  | nil => simp [jsSplit]
  | cons c rest ih =>
    have hc : c ≠ sep := fun e => h (by simp [e])
    have hrest : sep ∉ rest := fun e => h (by simp [e])
    simp only [jsSplit, ih hrest]
    simp [hc]

theorem jsSplit_sep_append {sep : Char} {w t : List Char} (hw : sep ∉ w) :
    jsSplit sep (w ++ sep :: t) = w :: jsSplit sep t := by
  induction w with
  | nil =>
    simp only [List.nil_append, jsSplit]
    cases h : jsSplit sep t with
    | nil => exact absurd h (jsSplit_ne_nil sep t)
    | cons p ps => simp
  | cons c w' ih =>
    have hc : c ≠ sep := fun e => hw (by simp [e])
    have hw' : sep ∉ w' := fun e => hw (by simp [e])
    show jsSplit sep (c :: (w' ++ sep :: t)) = (c :: w') :: jsSplit sep t
    unfold jsSplit
    rw [ih hw']
    simp [hc]
    rw [jsSplit.eq_def]

/-- C10: verifyToken keeps only the part of the Authorization header
after the first space, so any scheme word works: for a header
"word token" (no space inside either part, token nonempty),
authentication succeeds exactly when the token verifies; a header
without any space yields the same outcome as an absent header,
401 "No token provided". -/
theorem verifyToken_scheme_irrelevant :
    (∀ (jwtVerify : List Char → Option Nat) (w t : List Char) (uid : Nat),
        Char.ofNat 32 ∉ w → Char.ofNat 32 ∉ t → t ≠ [] →
        jwtVerify t = some uid →
        verifyToken jwtVerify (some (w ++ Char.ofNat 32 :: t)) = .ok uid) ∧
    (∀ (jwtVerify : List Char → Option Nat) (h : List Char),
        Char.ofNat 32 ∉ h →
        verifyToken jwtVerify (some h) = verifyToken jwtVerify none ∧
        verifyToken jwtVerify (some h) = .error ⟨401, "No token provided"⟩) := by
  constructor
  · intro jwtVerify w t uid hw ht hne hv
    simp [verifyToken, jsSplit_sep_append hw, jsSplit_no_sep ht, hne, hv]
  · intro jwtVerify h hh
    constructor <;> simp [verifyToken, jsSplit_no_sep hh]

/-- jwt.verify stand-in for the C10 witness: accepts the token "tok"
as user 7. -/
def jwtVerifyF : List Char → Option Nat :=
  fun t => if t = String.toList "tok" then some 7 else none

/-- Witness for C10: the scheme word "Basic" (not "Bearer") works, and
a spaceless header is rejected as token-less. -/
theorem verifyToken_scheme_irrelevant_witness :
    verifyToken jwtVerifyF
      (some (String.toList "Basic" ++ Char.ofNat 32 :: String.toList "tok")) =
      .ok 7 ∧
    verifyToken jwtVerifyF (some (String.toList "NoSpaceHeader")) =
      .error ⟨401, "No token provided"⟩ :=
  ⟨verifyToken_scheme_irrelevant.1 jwtVerifyF (String.toList "Basic")
      (String.toList "tok") 7 (by decide) (by decide) (by decide) (by decide),
   (verifyToken_scheme_irrelevant.2 jwtVerifyF
      (String.toList "NoSpaceHeader") (by decide)).2⟩

end FoodDonation
